import Mathlib

/-!
Verification of the container-analysis repository's scan orchestration,
normalization, aggregation, configuration and Dockerfile-generation logic,
as a shallow embedding of `container_analyzer.py` and
`java-runtime-dependency-analyzer.py`.
-/

/-- The fixed five-value severity enumeration of the unified data model. -/
inductive Severity where
  | critical
  | high
  | medium
  | low
  | unknown
deriving Repr, DecidableEq

/-- A normalized vulnerability record: identifier, mapped severity, and the
tool-specific extra fields passed through as metadata. -/
structure Vuln where
  id : String
  severity : Severity
  fields : List (String × String)
deriving Repr, DecidableEq

/-- Shallow embedding of the `ScanResult` dataclass of `container_analyzer.py`
(lines 71-81): tool name, image name, vulnerability list, metadata mapping and
a timestamp (instants are modelled as naturals). -/
structure ScanResult where
  tool_name : String
  image_name : String
  vulnerabilities : List Vuln
  metadata : List (String × String)
  timestamp : Nat
deriving Repr, DecidableEq

/-- Errors raised by the embedded Python code. `valueError` models the
stdlib `ValueError` raised by `ThreadPoolExecutor.__init__` for a
non-positive worker count; `toolError` models an exception escaping one
scanner adapter; `err` models any other phase exception. -/
inductive Err where
  | valueError (msg : String)
  | toolError (tool : String) (reason : String)
  | err (msg : String)
deriving Repr, DecidableEq

/-- The fixed scanner list hard-coded in `run_security_scans`
(`for scanner in ['dive', 'trivy', 'grype']`). -/
def scanners : List String := ["dive", "trivy", "grype"]

/-- Semantics of the list comprehension `[f.result() for f in futures]`:
`Future.result()` is queried in submission order and re-raises the first
failed future's exception, discarding every already-collected result. -/
def collectResults (o : String → Except Err ScanResult) : List String → Except Err (List ScanResult)
  | [] => .ok []
  | s :: ss =>
    match o s with
    | .error e => .error e
    | .ok r =>
      match collectResults o ss with
      | .error e => .error e
      | .ok rs => .ok (r :: rs)

/-- Outcome of one call to `run_security_scans`: which adapters were
submitted (the `with` block joins the executor, so every submitted adapter
also runs to completion before the call returns), and the value returned or
the exception raised. -/
structure ScanRun where
  launched : List String
  result : Except Err (List ScanResult)
deriving Repr

/-- Shallow embedding of `ContainerAnalyzer.run_security_scans`
(`container_analyzer.py` lines 309-329). `ThreadPoolExecutor` raises
`ValueError` at construction when `max_workers <= 0`, before any submit;
otherwise all three scanners are submitted and the comprehension collects
their results in submission order, re-raising the first failure. The
per-adapter outcomes are supplied as the function `o`. -/
def run_security_scans (max_workers : Int) (o : String → Except Err ScanResult) : ScanRun :=
  if max_workers ≤ 0 then
    { launched := [], result := .error (.valueError "max_workers must be greater than 0") }
  else
    { launched := scanners, result := collectResults o scanners }

/-- Files written to the results directory by the launched adapters: the
output path passed to each is `os.path.join(self.results_dir,
f'\x7bscanner\x7d_results.json')` with `results_dir = "scan_results"`. -/
def filesWritten (launched : List String) : List String :=
  launched.map (fun s => "scan_results/" ++ s ++ "_results.json")

/-- Sample successful scan result used by concrete instantiations. -/
def sampleResult (tool : String) : ScanResult :=
  { tool_name := tool, image_name := "nginx:latest", vulnerabilities := [],
    metadata := [], timestamp := 0 }

/-- Adapter outcomes in which `dive` fails and the others succeed. -/
def oneFailureOutcomes : String → Except Err ScanResult := fun s =>
  if s = "dive" then .error (.toolError "dive" "boom") else .ok (sampleResult s)

/-- Whether an `Except` value is a success. -/
def exceptOk : Except Err α → Bool
  | .ok _ => true
  | .error _ => false

/-- C1 (counterexample): with N = 3 adapters of which k = 1 (`dive`) fails,
`run_security_scans` does not yield 3 entries with one per-tool error: it
raises the failed adapter's exception and yields no entries at all. -/
theorem run_security_scans_failure_raises :
    (run_security_scans 4 oneFailureOutcomes).result = .error (.toolError "dive" "boom") ∧
    exceptOk (run_security_scans 4 oneFailureOutcomes).result = false := by
  constructor <;> rfl

/-- C1 (amended): for `max_workers > 0` all three submitted adapters run to
completion before the call returns (the executor join), but per-tool errors
are not collected into the return value: if every adapter succeeds the call
returns exactly the three `ScanResult`s in submission order, while if any
adapter fails the call raises the first failed adapter's exception (in
submission order) and yields no entries. -/
theorem run_security_scans_all_or_raise (mw : Int) (h : 0 < mw)
    (o : String → Except Err ScanResult) :
    (run_security_scans mw o).launched = ["dive", "trivy", "grype"] ∧
    (∀ r1 r2 r3, o "dive" = .ok r1 → o "trivy" = .ok r2 → o "grype" = .ok r3 →
      (run_security_scans mw o).result = .ok [r1, r2, r3]) ∧
    (∀ e, o "dive" = .error e → (run_security_scans mw o).result = .error e) ∧
    (∀ r1 e, o "dive" = .ok r1 → o "trivy" = .error e →
      (run_security_scans mw o).result = .error e) ∧
    (∀ r1 r2 e, o "dive" = .ok r1 → o "trivy" = .ok r2 → o "grype" = .error e →
      (run_security_scans mw o).result = .error e) := by
  have hmw : ¬ mw ≤ 0 := not_le.mpr h
  refine ⟨?_, ?_, ?_, ?_, ?_⟩
  · simp [run_security_scans, hmw, scanners]
  · intro r1 r2 r3 h1 h2 h3
    simp [run_security_scans, hmw, scanners, collectResults, h1, h2, h3]
  · intro e h1
    simp [run_security_scans, hmw, scanners, collectResults, h1]
  · intro r1 e h1 h2
    simp [run_security_scans, hmw, scanners, collectResults, h1, h2]
  · intro r1 r2 e h1 h2 h3
    simp [run_security_scans, hmw, scanners, collectResults, h1, h2, h3]

/-- Witness for `run_security_scans_all_or_raise` at `mw = 4` with all
adapters succeeding. -/
theorem run_security_scans_all_or_raise_witness :
    (0 : Int) < 4 ∧
    (run_security_scans 4 (fun s => .ok (sampleResult s))).launched =
      ["dive", "trivy", "grype"] ∧
    (run_security_scans 4 (fun s => .ok (sampleResult s))).result =
      .ok [sampleResult "dive", sampleResult "trivy", sampleResult "grype"] := by
  refine ⟨by decide, ?_, ?_⟩
  · exact (run_security_scans_all_or_raise 4 (by decide) (fun s => .ok (sampleResult s))).1
  · exact (run_security_scans_all_or_raise 4 (by decide)
      (fun s => .ok (sampleResult s))).2.1 (sampleResult "dive") (sampleResult "trivy")
      (sampleResult "grype") rfl rfl rfl

/-- C3: a non-positive `max_workers` makes `ThreadPoolExecutor` raise its
configuration `ValueError` at construction, before any adapter is
submitted, so nothing is launched and no file is written to the results
directory. (This `ValueError` is the error the spec's taxonomy calls
`ConfigurationError`: fatal, raised before any work starts.) -/
theorem run_security_scans_rejects_nonpositive_workers (mw : Int) (h : mw ≤ 0)
    (o : String → Except Err ScanResult) :
    (run_security_scans mw o).result =
      .error (.valueError "max_workers must be greater than 0") ∧
    (run_security_scans mw o).launched = [] ∧
    filesWritten (run_security_scans mw o).launched = [] := by
  simp [run_security_scans, h, filesWritten]

/-- Witness for `run_security_scans_rejects_nonpositive_workers` at
`max_workers = 0`. -/
theorem run_security_scans_rejects_nonpositive_workers_witness :
    (0 : Int) ≤ 0 ∧
    (run_security_scans 0 oneFailureOutcomes).launched = [] ∧
    filesWritten (run_security_scans 0 oneFailureOutcomes).launched = [] := by
  refine ⟨by decide, ?_, ?_⟩
  · exact (run_security_scans_rejects_nonpositive_workers 0 (by decide) oneFailureOutcomes).2.1
  · exact (run_security_scans_rejects_nonpositive_workers 0 (by decide) oneFailureOutcomes).2.2

/-- C8: `run_security_scans` submits exactly `dive`, `trivy`, `grype` — the
set is hard-coded, identical for every worker count and every adapter
behavior — and when all three succeed it returns their results in exactly
that submission order. -/
theorem run_security_scans_fixed_scanners (mw : Int) (h : 0 < mw)
    (o : String → Except Err ScanResult) (r1 r2 r3 : ScanResult)
    (h1 : o "dive" = .ok r1) (h2 : o "trivy" = .ok r2) (h3 : o "grype" = .ok r3) :
    (run_security_scans mw o).launched = ["dive", "trivy", "grype"] ∧
    (∀ mw2 : Int, 0 < mw2 → ∀ o2 : String → Except Err ScanResult,
      (run_security_scans mw2 o2).launched = (run_security_scans mw o).launched) ∧
    (run_security_scans mw o).result = .ok [r1, r2, r3] := by
  have hmw : ¬ mw ≤ 0 := not_le.mpr h
  refine ⟨?_, ?_, ?_⟩
  · simp [run_security_scans, hmw, scanners]
  · intro mw2 hmw2 o2
    simp [run_security_scans, hmw, not_le.mpr hmw2]
  · simp [run_security_scans, hmw, scanners, collectResults, h1, h2, h3]

/-- Witness for `run_security_scans_fixed_scanners` at `mw = 2` with three
concrete successful results. -/
theorem run_security_scans_fixed_scanners_witness :
    (run_security_scans 2 (fun s => .ok (sampleResult s))).launched =
      ["dive", "trivy", "grype"] ∧
    (run_security_scans 2 (fun s => .ok (sampleResult s))).result =
      .ok [sampleResult "dive", sampleResult "trivy", sampleResult "grype"] := by
  have h := run_security_scans_fixed_scanners 2 (by decide)
    (fun s => .ok (sampleResult s)) (sampleResult "dive") (sampleResult "trivy")
    (sampleResult "grype") rfl rfl rfl
  exact ⟨h.1, h.2.2⟩

/-- Configuration surface consumed by `run_analysis`: the worker bound and
the four feature flags read via `self.config.get(...).get("enabled")`. -/
structure Config where
  max_workers : Int
  runtime_enabled : Bool
  network_enabled : Bool
  compliance_enabled : Bool
  notification_enabled : Bool
deriving Repr, DecidableEq

/-- The analysis-relevant part of the `locals()` dictionary that
`run_analysis` hands to `generate_reports` and `send_notifications`: each
phase's local variable is present exactly when that phase ran. Opaque phase
payloads are modelled as naturals. -/
structure Locals where
  security_results : Option (List ScanResult)
  sbom_data : Option Nat
  runtime_results : Option Nat
  network_results : Option Nat
  compliance_results : Option Nat
deriving Repr, DecidableEq

/-- Outcomes of the externally-effectful steps `run_analysis` invokes:
image pull, the three scanner adapters, SBOM generation, the three optional
phases, report generation and notification. These methods are elided from
the source file ("Previous methods remain the same"), so each is an opaque
outcome parameter; the control flow around them is the embedded code. -/
structure Outcomes where
  pull : Except Err Unit
  adapters : String → Except Err ScanResult
  sbom : Except Err Nat
  runtime : Except Err Nat
  network : Except Err Nat
  compliance : Except Err Nat
  report : Except Err Unit
  notify : Except Err Unit

instance [DecidableEq ε] [DecidableEq α] : DecidableEq (Except ε α) := fun x y =>
  match x, y with
  | .ok a, .ok b => if h : a = b then .isTrue (by rw [h]) else .isFalse (by simp [h])
  | .error a, .error b => if h : a = b then .isTrue (by rw [h]) else .isFalse (by simp [h])
  | .ok _, .error _ => .isFalse (by simp)
  | .error _, .ok _ => .isFalse (by simp)

/-- Trace of one `run_analysis` call: which phases were invoked, the
`locals()` snapshot passed to reports and to notifications, and the value
returned or the exception re-raised by the `except` block. -/
structure RunTrace where
  pullRan : Bool
  scansRan : Bool
  sbomRan : Bool
  runtimeRan : Bool
  networkRan : Bool
  complianceRan : Bool
  reportsRan : Bool
  notifyRan : Bool
  reportInput : Option Locals
  notifyInput : Option Locals
  result : Except Err Unit
deriving Repr, DecidableEq

/-- Shallow embedding of `ContainerAnalyzer.run_analysis`
(`container_analyzer.py` lines 241-305): pull, security scans, SBOM, then
the flag-guarded runtime, network and compliance phases, then report
generation and the flag-guarded notification. Any exception aborts the
remaining phases (the `except` block logs and re-raises). -/
def run_analysis (cfg : Config) (o : Outcomes) : RunTrace :=
  let t0 : RunTrace :=
    { pullRan := true, scansRan := false, sbomRan := false, runtimeRan := false,
      networkRan := false, complianceRan := false, reportsRan := false,
      notifyRan := false, reportInput := none, notifyInput := none,
      result := Except.ok () }
  match o.pull with
  | .error e => { t0 with result := .error e }
  | .ok _ =>
    let t1 := { t0 with scansRan := true }
    match (run_security_scans cfg.max_workers o.adapters).result with
    | .error e => { t1 with result := .error e }
    | .ok security_results =>
      let t2 := { t1 with sbomRan := true }
      match o.sbom with
      | .error e => { t2 with result := .error e }
      | .ok sbom_data =>
        let t3 := { t2 with runtimeRan := cfg.runtime_enabled }
        match (if cfg.runtime_enabled then Except.map some o.runtime else .ok none) with
        | .error e => { t3 with result := .error e }
        | .ok runtime_results =>
          let t4 := { t3 with networkRan := cfg.network_enabled }
          match (if cfg.network_enabled then Except.map some o.network else .ok none) with
          | .error e => { t4 with result := .error e }
          | .ok network_results =>
            let t5 := { t4 with complianceRan := cfg.compliance_enabled }
            match (if cfg.compliance_enabled then Except.map some o.compliance else .ok none) with
            | .error e => { t5 with result := .error e }
            | .ok compliance_results =>
              let locs : Locals :=
                { security_results := some security_results,
                  sbom_data := some sbom_data,
                  runtime_results := runtime_results,
                  network_results := network_results,
                  compliance_results := compliance_results }
              let t6 := { t5 with reportsRan := true, reportInput := some locs }
              match o.report with
              | .error e => { t6 with result := .error e }
              | .ok _ =>
                if cfg.notification_enabled then
                  let t7 := { t6 with notifyRan := true, notifyInput := some locs }
                  match o.notify with
                  | .error e => { t7 with result := .error e }
                  | .ok _ => t7
                else t6

/-- Configuration with all optional phases disabled and four workers. -/
def plainConfig : Config :=
  { max_workers := 4, runtime_enabled := false, network_enabled := false,
    compliance_enabled := false, notification_enabled := false }

/-- Outcomes in which everything succeeds except the `dive` scanner. -/
def scanFailureOutcomes : Outcomes :=
  { pull := .ok (), adapters := oneFailureOutcomes, sbom := .ok 0,
    runtime := .ok 0, network := .ok 0, compliance := .ok 0,
    report := .ok (), notify := .ok () }

/-- C2 (counterexample): one failed tool scan aborts the whole run — the
configuration is valid and every other step would succeed, yet the scan
exception propagates out of `run_analysis` and report generation is never
reached, contradicting "the run still completes" and "reports are
generated". -/
theorem run_analysis_scan_failure_aborts :
    (run_analysis plainConfig scanFailureOutcomes).result =
      .error (.toolError "dive" "boom") ∧
    (run_analysis plainConfig scanFailureOutcomes).reportsRan = false ∧
    (run_analysis plainConfig scanFailureOutcomes).reportInput = none := by
  refine ⟨rfl, rfl, rfl⟩

/-- Whether `run_analysis` reaches report generation: the image pull, the
security-scan step and the SBOM step succeed, and each optional phase
either is disabled or succeeds. The report and notification steps' own
outcomes play no part. -/
def reachesReports (cfg : Config) (o : Outcomes) : Bool :=
  exceptOk o.pull &&
  exceptOk (run_security_scans cfg.max_workers o.adapters).result &&
  exceptOk o.sbom &&
  (!cfg.runtime_enabled || exceptOk o.runtime) &&
  (!cfg.network_enabled || exceptOk o.network) &&
  (!cfg.compliance_enabled || exceptOk o.compliance)

set_option maxHeartbeats 1600000 in
/-- C2 (amended): a failed tool scan aborts the run — the exception from
`run_security_scans` propagates, `run_analysis` logs and re-raises it, and
report generation is never reached; for every configuration and every
outcome assignment, report generation is reached exactly when the image
pull, the security scans, the SBOM step and every enabled optional phase
succeed (the report and notification steps' own outcomes do not affect
whether report generation is reached). -/
theorem run_analysis_completes_iff_no_failure (cfg : Config) (o : Outcomes) :
    (run_analysis cfg o).reportsRan = reachesReports cfg o ∧
    (∀ e, o.pull = .ok () →
      (run_security_scans cfg.max_workers o.adapters).result = .error e →
      (run_analysis cfg o).result = .error e ∧
      (run_analysis cfg o).reportsRan = false ∧
      (run_analysis cfg o).reportInput = none) := by
  obtain ⟨mw, re, ne, ce, nfe⟩ := cfg
  constructor
  · simp only [run_analysis, reachesReports]
    all_goals cases hp : o.pull
    all_goals try rfl
    all_goals cases hs : (run_security_scans mw o.adapters).result
    all_goals try rfl
    all_goals cases hsb : o.sbom
    all_goals try rfl
    all_goals cases re
    all_goals try rfl
    all_goals cases hrt : o.runtime
    all_goals try rfl
    all_goals cases ne
    all_goals try rfl
    all_goals cases hnw : o.network
    all_goals try rfl
    all_goals cases ce
    all_goals try rfl
    all_goals cases hcp : o.compliance
    all_goals try rfl
    all_goals cases nfe
    all_goals try rfl
    all_goals cases hrep : o.report
    all_goals try rfl
    all_goals cases hnt : o.notify
    all_goals rfl
  · intro e hp he
    refine ⟨?_, ?_, ?_⟩ <;> simp [run_analysis, hp, he]

/-- Outcomes in which every step succeeds. -/
def allOkOutcomes : Outcomes :=
  { pull := .ok (), adapters := fun s => .ok (sampleResult s), sbom := .ok 0,
    runtime := .ok 0, network := .ok 0, compliance := .ok 0,
    report := .ok (), notify := .ok () }

/-- Witness for `run_analysis_completes_iff_no_failure`: the
characterization applied to an all-successful run (reports reached) and to
a run with a failed `dive` scan (run aborts with that error, reports never
reached), discharging the inner hypotheses at concrete inputs. -/
theorem run_analysis_completes_iff_no_failure_witness :
    (run_analysis plainConfig allOkOutcomes).reportsRan =
      reachesReports plainConfig allOkOutcomes ∧
    reachesReports plainConfig allOkOutcomes = true ∧
    scanFailureOutcomes.pull = .ok () ∧
    (run_security_scans plainConfig.max_workers scanFailureOutcomes.adapters).result =
      .error (.toolError "dive" "boom") ∧
    (run_analysis plainConfig scanFailureOutcomes).result =
      .error (.toolError "dive" "boom") ∧
    (run_analysis plainConfig scanFailureOutcomes).reportsRan = false := by
  have h := (run_analysis_completes_iff_no_failure plainConfig scanFailureOutcomes).2
    (.toolError "dive" "boom") rfl rfl
  exact ⟨(run_analysis_completes_iff_no_failure plainConfig allOkOutcomes).1,
    by decide, rfl, rfl, h.1, h.2.1⟩

/-- The four feature flags of the configuration surface. -/
inductive FeatureFlag where
  | runtime
  | network
  | compliance
  | notification
deriving Repr, DecidableEq

/-- Disable one feature flag, leaving the rest of the configuration as is. -/
def Config.disableFlag (c : Config) : FeatureFlag → Config
  | .runtime => { c with runtime_enabled := false }
  | .network => { c with network_enabled := false }
  | .compliance => { c with compliance_enabled := false }
  | .notification => { c with notification_enabled := false }

/-- Clear the `locals()` entry corresponding to a feature flag (the
notification flag contributes no entry). -/
def Locals.unset (l : Locals) : FeatureFlag → Locals
  | .runtime => { l with runtime_results := none }
  | .network => { l with network_results := none }
  | .compliance => { l with compliance_results := none }
  | .notification => l

/-- Erase one flag's phase from a run trace: mark the phase not-run and
clear its entry from the report/notification inputs. A disabled flag should
produce exactly the erased trace of the corresponding enabled run. -/
def RunTrace.erase (t : RunTrace) : FeatureFlag → RunTrace
  | .runtime =>
    { t with runtimeRan := false,
             reportInput := Option.map (fun l => l.unset .runtime) t.reportInput,
             notifyInput := Option.map (fun l => l.unset .runtime) t.notifyInput }
  | .network =>
    { t with networkRan := false,
             reportInput := Option.map (fun l => l.unset .network) t.reportInput,
             notifyInput := Option.map (fun l => l.unset .network) t.notifyInput }
  | .compliance =>
    { t with complianceRan := false,
             reportInput := Option.map (fun l => l.unset .compliance) t.reportInput,
             notifyInput := Option.map (fun l => l.unset .compliance) t.notifyInput }
  | .notification =>
    { t with notifyRan := false, notifyInput := none }

/-- The outcome of the phase guarded by a flag. -/
def Outcomes.flagOk (o : Outcomes) : FeatureFlag → Bool
  | .runtime => exceptOk o.runtime
  | .network => exceptOk o.network
  | .compliance => exceptOk o.compliance
  | .notification => exceptOk o.notify

lemma exceptOk_exists {α : Type} (x : Except Err α) (h : exceptOk x = true) :
    ∃ v, x = Except.ok v := by
  cases x
  · simp [exceptOk] at h
  · exact ⟨_, rfl⟩

/-- Configuration with every optional phase enabled. -/
def allFlagsConfig : Config :=
  { max_workers := 4, runtime_enabled := true, network_enabled := true,
    compliance_enabled := true, notification_enabled := true }

/-- Outcomes in which every step succeeds except the compliance phase. -/
def complianceFailureOutcomes : Outcomes :=
  { pull := .ok (), adapters := fun s => .ok (sampleResult s), sbom := .ok 0,
    runtime := .ok 0, network := .ok 0, compliance := .error (.err "compliance boom"),
    report := .ok (), notify := .ok () }

/-- C5 (counterexample): runs with identical inputs differing only in the
compliance flag, where the compliance phase would fail. With the flag
enabled the compliance exception aborts the run before report generation;
with it disabled the reports phase executes — so disabling the flag does
change another phase's execution, and the two runs' results differ. -/
theorem run_analysis_flag_toggle_changes_other_phase :
    (run_analysis allFlagsConfig complianceFailureOutcomes).reportsRan = false ∧
    (run_analysis (allFlagsConfig.disableFlag .compliance)
      complianceFailureOutcomes).reportsRan = true ∧
    (run_analysis allFlagsConfig complianceFailureOutcomes).result ≠
      (run_analysis (allFlagsConfig.disableFlag .compliance)
        complianceFailureOutcomes).result := by
  decide

set_option maxHeartbeats 1600000 in
/-- C5 (amended): provided the phase guarded by the toggled flag would
succeed, disabling that one flag leaves every other phase's execution and
outcome unchanged: the disabled run's trace is exactly the enabled run's
trace with the toggled phase marked not-run and its entry cleared from the
report/notification inputs (the corresponding bundle field is left unset).
If the guarded phase would fail, the exception-based control flow makes the
toggle change later phases (see the counterexample). -/
theorem run_analysis_flag_independence (cfg : Config) (o : Outcomes) (f : FeatureFlag)
    (hok : o.flagOk f = true) :
    run_analysis (cfg.disableFlag f) o = RunTrace.erase (run_analysis cfg o) f := by
  obtain ⟨mw, re, ne, ce, nfe⟩ := cfg
  cases f
  case runtime =>
    obtain ⟨v, hv⟩ := exceptOk_exists o.runtime hok
    simp only [run_analysis, Config.disableFlag]
    rw [hv]
    all_goals cases hp : o.pull
    all_goals try rfl
    all_goals cases hs : (run_security_scans mw o.adapters).result
    all_goals try rfl
    all_goals cases hsb : o.sbom
    all_goals try rfl
    all_goals cases re
    all_goals try rfl
    all_goals cases ne
    all_goals try rfl
    all_goals cases hnw : o.network
    all_goals try rfl
    all_goals cases ce
    all_goals try rfl
    all_goals cases hcp : o.compliance
    all_goals try rfl
    all_goals cases nfe
    all_goals try rfl
    all_goals cases hrep : o.report
    all_goals try rfl
    all_goals cases hnt : o.notify
    all_goals rfl
  case network =>
    obtain ⟨v, hv⟩ := exceptOk_exists o.network hok
    simp only [run_analysis, Config.disableFlag]
    rw [hv]
    all_goals cases hp : o.pull
    all_goals try rfl
    all_goals cases hs : (run_security_scans mw o.adapters).result
    all_goals try rfl
    all_goals cases hsb : o.sbom
    all_goals try rfl
    all_goals cases re
    all_goals try rfl
    all_goals cases hrt : o.runtime
    all_goals try rfl
    all_goals cases ne
    all_goals try rfl
    all_goals cases ce
    all_goals try rfl
    all_goals cases hcp : o.compliance
    all_goals try rfl
    all_goals cases nfe
    all_goals try rfl
    all_goals cases hrep : o.report
    all_goals try rfl
    all_goals cases hnt : o.notify
    all_goals rfl
  case compliance =>
    obtain ⟨v, hv⟩ := exceptOk_exists o.compliance hok
    simp only [run_analysis, Config.disableFlag]
    rw [hv]
    all_goals cases hp : o.pull
    all_goals try rfl
    all_goals cases hs : (run_security_scans mw o.adapters).result
    all_goals try rfl
    all_goals cases hsb : o.sbom
    all_goals try rfl
    all_goals cases re
    all_goals try rfl
    all_goals cases hrt : o.runtime
    all_goals try rfl
    all_goals cases ne
    all_goals try rfl
    all_goals cases hnw : o.network
    all_goals try rfl
    all_goals cases ce
    all_goals try rfl
    all_goals cases nfe
    all_goals try rfl
    all_goals cases hrep : o.report
    all_goals try rfl
    all_goals cases hnt : o.notify
    all_goals rfl
  case notification =>
    obtain ⟨v, hv⟩ := exceptOk_exists o.notify hok
    simp only [run_analysis, Config.disableFlag]
    rw [hv]
    all_goals cases hp : o.pull
    all_goals try rfl
    all_goals cases hs : (run_security_scans mw o.adapters).result
    all_goals try rfl
    all_goals cases hsb : o.sbom
    all_goals try rfl
    all_goals cases re
    all_goals try rfl
    all_goals cases hrt : o.runtime
    all_goals try rfl
    all_goals cases ne
    all_goals try rfl
    all_goals cases hnw : o.network
    all_goals try rfl
    all_goals cases ce
    all_goals try rfl
    all_goals cases hcp : o.compliance
    all_goals try rfl
    all_goals cases nfe
    all_goals try rfl
    all_goals cases hrep : o.report
    all_goals rfl

/-- Witness for `run_analysis_flag_independence`: toggling the compliance
flag on an all-successful run. -/
theorem run_analysis_flag_independence_witness :
    run_analysis (allFlagsConfig.disableFlag .compliance) allOkOutcomes =
      RunTrace.erase (run_analysis allFlagsConfig allOkOutcomes) .compliance := by
  exact run_analysis_flag_independence allFlagsConfig allOkOutcomes .compliance rfl

/-- Shallow embedding of the `ComplianceResult` dataclass
(`container_analyzer.py` lines 87-99), with the score held as an optional
exact rational: `none` is the not-available report for `total_rules = 0`. -/
structure ComplianceResult where
  framework : String
  checks : List (String × Bool)
  score : Option ℚ
  passed_rules : Nat
  total_rules : Nat
  timestamp : Nat
deriving DecidableEq

/-- Modelled from the spec: `run_compliance_checks`, the producer of
`ComplianceResult`, is elided from the source file ("Previous methods
remain the same"). Per the spec, it runs the framework's checks and fills
`score = passed_rules / total_rules` when `total_rules > 0`, reporting the
score as not-available when `total_rules = 0`. -/
def run_compliance_checks (framework : String) (checks : List (String × Bool))
    (now : Nat) : ComplianceResult :=
  let total := checks.length
  let passed := (checks.filter (fun c => c.2)).length
  { framework := framework, checks := checks,
    score := if total = 0 then none else some ((passed : ℚ) / (total : ℚ)),
    passed_rules := passed, total_rules := total, timestamp := now }

/-- C4: every produced `ComplianceResult` satisfies the score invariant —
for `total_rules > 0` the score is exactly `passed_rules / total_rules`
(an exact rational, no NaN), and for `total_rules = 0` it is the
not-available value, never a division error. -/
theorem compliance_score_invariant (framework : String)
    (checks : List (String × Bool)) (now : Nat) :
    (0 < (run_compliance_checks framework checks now).total_rules →
      (run_compliance_checks framework checks now).score =
        some (((run_compliance_checks framework checks now).passed_rules : ℚ) /
          ((run_compliance_checks framework checks now).total_rules : ℚ))) ∧
    ((run_compliance_checks framework checks now).total_rules = 0 →
      (run_compliance_checks framework checks now).score = none) := by
  constructor
  · intro h
    have hne : checks.length ≠ 0 := by
      simp only [run_compliance_checks] at h
      omega
    simp [run_compliance_checks, hne]
  · intro h
    have hz : checks.length = 0 := by
      simp only [run_compliance_checks] at h
      exact h
    simp [run_compliance_checks, hz]

/-- Witness for `compliance_score_invariant`: a framework with one passed
rule out of two scores exactly one half. -/
theorem compliance_score_invariant_witness :
    0 < (run_compliance_checks "CIS" [("r1", true), ("r2", false)] 0).total_rules ∧
    (run_compliance_checks "CIS" [("r1", true), ("r2", false)] 0).score =
      some ((1 : ℚ) / 2) := by
  have hpos : 0 < (run_compliance_checks "CIS" [("r1", true), ("r2", false)] 0).total_rules := by
    decide
  refine ⟨hpos, ?_⟩
  have h := (compliance_score_invariant "CIS" [("r1", true), ("r2", false)] 0).1 hpos
  simpa [run_compliance_checks] using h

/-- A raw vulnerability record as emitted by one tool: identifier, the
tool's own severity vocabulary, and tool-specific fields. -/
structure RawVuln where
  id : String
  severity : String
  fields : List (String × String)
deriving Repr, DecidableEq

/-- A raw tool output: vulnerability records plus tool-specific metadata. -/
structure RawToolOutput where
  vulns : List RawVuln
  metadata : List (String × String)
deriving Repr, DecidableEq

/-- Modelled from the spec: the fixed severity-vocabulary table of the
normalizer (elided from the source file); unknown vocabulary values map to
`unknown` rather than being discarded. -/
def mapSeverity (s : String) : Severity :=
  if s = "critical" ∨ s = "CRITICAL" then .critical
  else if s = "high" ∨ s = "HIGH" then .high
  else if s = "medium" ∨ s = "MEDIUM" then .medium
  else if s = "low" ∨ s = "LOW" then .low
  else .unknown

/-- Modelled from the spec: `ResultNormalizer.normalize` (elided from the
source file) — maps each raw record's severity through the fixed table,
passes identifiers and metadata through unchanged, and stamps the
wall-clock capture time `now`. It is a pure function of its arguments. -/
def normalizeOutput (tool_name image_name : String) (raw : RawToolOutput) (now : Nat) : ScanResult :=
  { tool_name := tool_name, image_name := image_name,
    vulnerabilities := raw.vulns.map
      (fun v => { id := v.id, severity := mapSeverity v.severity, fields := v.fields }),
    metadata := raw.metadata, timestamp := now }

/-- Everything of a `ScanResult` except its timestamp field. -/
def ScanResult.content (r : ScanResult) :
    String × String × List Vuln × List (String × String) :=
  (r.tool_name, r.image_name, r.vulnerabilities, r.metadata)

/-- C6: normalization is deterministic for a given raw input — two
normalization passes over the same raw tool output produce identical
`ScanResult` content in every field except the timestamp, whatever the two
capture times are. -/
theorem normalize_idempotent_mod_timestamp (tool image : String)
    (raw : RawToolOutput) (t1 t2 : Nat) :
    (normalizeOutput tool image raw t1).content = (normalizeOutput tool image raw t2).content ∧
    (normalizeOutput tool image raw t1).timestamp = t1 ∧
    (normalizeOutput tool image raw t2).timestamp = t2 := by
  exact ⟨rfl, rfl, rfl⟩

/-- Modelled from the spec: within a single tool's output duplicates are
removed by identifier, keeping the first record for each identifier;
`seen` accumulates the identifiers already kept. -/
def dedupById : List Vuln → List String → List Vuln
  | [], _ => []
  | v :: vs, seen =>
    if v.id ∈ seen then dedupById vs seen
    else v :: dedupById vs (v.id :: seen)

/-- Modelled from the spec: the Aggregator's per-severity vulnerability
count — the sum across successful scan results of that result's
deduplicated records carrying the severity (deduplication happens per
tool, never across tools). -/
def severityCount : List ScanResult → Severity → Nat
  | [], _ => 0
  | r :: rs, s =>
    ((dedupById r.vulnerabilities []).filter (fun v => v.severity == s)).length +
      severityCount rs s

/-- The `(tool, identifier, severity)` triples contributed by one scan
result after per-tool deduplication. -/
def pairsOf (r : ScanResult) : List (String × String × Severity) :=
  (dedupById r.vulnerabilities []).map (fun v => (r.tool_name, v.id, v.severity))

/-- All `(tool, identifier, severity)` triples contributed by a list of
scan results. -/
def taggedPairs : List ScanResult → List (String × String × Severity)
  | [] => []
  | r :: rs => pairsOf r ++ taggedPairs rs

lemma mem_dedupById_not_seen {v : Vuln} :
    ∀ (vs : List Vuln) (seen : List String), v ∈ dedupById vs seen → v.id ∉ seen := by
  intro vs
  induction vs with
  | nil => intro seen h; simp [dedupById] at h
  | cons u us ih =>
    intro seen h
    by_cases hu : u.id ∈ seen
    · exact ih seen (by simpa [dedupById, hu] using h)
    · have h2 : v = u ∨ v ∈ dedupById us (u.id :: seen) := by
        simpa [dedupById, hu] using h
      rcases h2 with h1 | h2
      · subst h1; exact hu
      · intro hc
        exact ih (u.id :: seen) h2 (List.mem_cons_of_mem _ hc)

lemma dedupById_ids_nodup :
    ∀ (vs : List Vuln) (seen : List String), ((dedupById vs seen).map Vuln.id).Nodup := by
  intro vs
  induction vs with
  | nil => intro seen; simp [dedupById]
  | cons u us ih =>
    intro seen
    by_cases hu : u.id ∈ seen
    · simpa [dedupById, hu] using ih seen
    · have heq : dedupById (u :: us) seen = u :: dedupById us (u.id :: seen) := by
        simp [dedupById, hu]
      rw [heq, List.map_cons, List.nodup_cons]
      refine ⟨?_, ih (u.id :: seen)⟩
      intro hmem
      rcases List.mem_map.mp hmem with ⟨w, hw, hwid⟩
      exact mem_dedupById_not_seen us (u.id :: seen) hw
        (by rw [hwid]; exact List.mem_cons_self _ _)

lemma pairsOf_key_nodup (r : ScanResult) :
    ((pairsOf r).map (fun p => (p.1, p.2.1))).Nodup := by
  have h := dedupById_ids_nodup r.vulnerabilities []
  rw [pairsOf, List.map_map]
  have hcomp : ((fun p : String × String × Severity => (p.1, p.2.1)) ∘
      (fun v : Vuln => (r.tool_name, v.id, v.severity))) =
      ((fun i => (r.tool_name, i)) ∘ Vuln.id) := rfl
  rw [hcomp, ← List.map_map]
  exact h.map (fun a b hab => by simpa using hab)

lemma key_mem_pairsOf {a : String × String} (r : ScanResult)
    (ha : a ∈ (pairsOf r).map (fun p => (p.1, p.2.1))) : a.1 = r.tool_name := by
  rw [pairsOf, List.map_map] at ha
  rcases List.mem_map.mp ha with ⟨v, _, hv⟩
  rw [← hv]
  rfl

lemma key_mem_taggedPairs {a : String × String} :
    ∀ (results : List ScanResult),
      a ∈ (taggedPairs results).map (fun p => (p.1, p.2.1)) →
      a.1 ∈ results.map ScanResult.tool_name := by
  intro results
  induction results with
  | nil => intro h; simp [taggedPairs] at h
  | cons r rs ih =>
    intro h
    rw [taggedPairs, List.map_append, List.mem_append] at h
    rw [List.map_cons]
    rcases h with h | h
    · rw [key_mem_pairsOf r h]
      exact List.mem_cons_self _ _
    · exact List.mem_cons_of_mem _ (ih h)

lemma taggedPairs_key_nodup :
    ∀ (results : List ScanResult), (results.map ScanResult.tool_name).Nodup →
      ((taggedPairs results).map (fun p => (p.1, p.2.1))).Nodup := by
  intro results
  induction results with
  | nil => intro _; simp [taggedPairs]
  | cons r rs ih =>
    intro h
    rw [List.map_cons, List.nodup_cons] at h
    rw [taggedPairs, List.map_append, List.nodup_append]
    refine ⟨pairsOf_key_nodup r, ih h.2, ?_⟩
    intro a ha hb
    have h1 : a.1 = r.tool_name := key_mem_pairsOf r ha
    have h2 : a.1 ∈ rs.map ScanResult.tool_name := key_mem_taggedPairs rs hb
    rw [h1] at h2
    exact h.1 h2

lemma length_filter_map_eq {α β : Type} (f : α → β) (p : β → Bool) :
    ∀ l : List α, ((l.map f).filter p).length = (l.filter (fun a => p (f a))).length := by
  intro l
  induction l with
  | nil => rfl
  | cons a l ih =>
    by_cases h : p (f a) <;> simp [List.filter_cons, h, ih]

lemma severityCount_eq_filter :
    ∀ (results : List ScanResult) (s : Severity),
      severityCount results s =
        ((taggedPairs results).filter (fun p => p.2.2 == s)).length := by
  intro results
  induction results with
  | nil => intro s; rfl
  | cons r rs ih =>
    intro s
    rw [severityCount, taggedPairs, List.filter_append, List.length_append, ih]
    have hchunk : ((pairsOf r).filter (fun p => p.2.2 == s)).length =
        ((dedupById r.vulnerabilities []).filter (fun v => v.severity == s)).length := by
      rw [pairsOf, length_filter_map_eq]
    rw [hchunk]

/-- C7: when each tool contributes one scan result, the aggregated count
for a severity equals the number of distinct `(tool, identifier)` pairs
bucketed by that severity — the pair list carries no duplicate
`(tool, identifier)` key, so a CVE reported by two tools is counted once
per tool while duplicates inside one tool's output are removed. -/
theorem severity_counts_are_per_tool_pairs (results : List ScanResult) (s : Severity)
    (h : (results.map ScanResult.tool_name).Nodup) :
    ((taggedPairs results).map (fun p => (p.1, p.2.1))).Nodup ∧
    severityCount results s =
      ((taggedPairs results).filter (fun p => p.2.2 == s)).length ∧
    severityCount results s =
      (((taggedPairs results).filter (fun p => p.2.2 == s)).map
        (fun p => (p.1, p.2.1))).toFinset.card := by
  have hnd := taggedPairs_key_nodup results h
  have hfil : (((taggedPairs results).filter (fun p => p.2.2 == s)).map
      (fun p => (p.1, p.2.1))).Nodup := by
    have hsub : List.Sublist
        (((taggedPairs results).filter (fun p => p.2.2 == s)).map (fun p => (p.1, p.2.1)))
        ((taggedPairs results).map (fun p => (p.1, p.2.1))) :=
      (List.filter_sublist _).map _
    exact hnd.sublist hsub
  refine ⟨hnd, severityCount_eq_filter results s, ?_⟩
  rw [severityCount_eq_filter results s, List.toFinset_card_of_nodup hfil,
    List.length_map]

/-- Scan result of `toolA` listing the same CVE twice plus a second CVE. -/
def toolAResult : ScanResult :=
  { tool_name := "toolA", image_name := "img",
    vulnerabilities := [⟨"CVE-1", .critical, []⟩, ⟨"CVE-1", .critical, []⟩,
      ⟨"CVE-2", .low, []⟩],
    metadata := [], timestamp := 0 }

/-- Scan result of `toolB` listing the same CVE as `toolA`. -/
def toolBResult : ScanResult :=
  { tool_name := "toolB", image_name := "img",
    vulnerabilities := [⟨"CVE-1", .critical, []⟩],
    metadata := [], timestamp := 0 }

/-- Witness for `severity_counts_are_per_tool_pairs`: `CVE-1` reported by
both tools counts once per tool (critical count 2), while `toolA`'s
in-tool duplicate of `CVE-1` is removed. -/
theorem severity_counts_are_per_tool_pairs_witness :
    ([toolAResult, toolBResult].map ScanResult.tool_name).Nodup ∧
    severityCount [toolAResult, toolBResult] Severity.critical =
      (((taggedPairs [toolAResult, toolBResult]).filter
        (fun p => p.2.2 == Severity.critical)).map
          (fun p => (p.1, p.2.1))).toFinset.card ∧
    severityCount [toolAResult, toolBResult] Severity.critical = 2 := by
  refine ⟨by decide, ?_, by decide⟩
  exact (severity_counts_are_per_tool_pairs [toolAResult, toolBResult]
    Severity.critical (by decide)).2.2

/-- Python `str.split(':')` over the characters of a string, with `acc`
holding the (reversed) characters of the current field. -/
def splitOnColonAux : List Char → List Char → List (List Char)
  | [], acc => [acc.reverse]
  | c :: cs, acc =>
    if c = ':' then acc.reverse :: splitOnColonAux cs []
    else splitOnColonAux cs (c :: acc)

/-- Python `s.split(':')`. -/
def splitOnColon (l : List Char) : List (List Char) := splitOnColonAux l []

/-- Embedding of the expression `self.image.split(':')[0]` used by
`setup_base_configuration` (`container_analyzer.py` lines 171-173). -/
def firstColonField (s : String) : String :=
  String.mk ((splitOnColon s.data).headD [])

/-- The relevant part of the parsed CLI arguments. -/
structure Args where
  image : Option String

/-- Embedding of the image default in `setup_base_configuration`:
`args.image if args and args.image else "nginx:latest"` — a missing
argument object, a missing image, or an empty (falsy) image string all
fall back to `nginx:latest`. -/
def analyzer_image (args : Option Args) : String :=
  match args with
  | none => "nginx:latest"
  | some a =>
    match a.image with
    | none => "nginx:latest"
    | some s => if s = "" then "nginx:latest" else s

/-- `self.slim_image` as computed by `setup_base_configuration`. -/
def slim_image (image : String) : String :=
  firstColonField image ++ "-slim:latest"

/-- `self.distroless_image` as computed by `setup_base_configuration`. -/
def distroless_image (image : String) : String :=
  firstColonField image ++ "-distroless:latest"

/-- The spec phrasing of the claim: the text of the string before its
first colon (the whole string when it has no colon). -/
def textBeforeFirstColon (s : String) : String :=
  String.mk (s.data.takeWhile (fun c => c != ':'))

lemma splitOnColonAux_headD :
    ∀ (l acc : List Char),
      (splitOnColonAux l acc).headD [] = acc.reverse ++ l.takeWhile (fun c => c != ':') := by
  intro l
  induction l with
  | nil => intro acc; simp [splitOnColonAux]
  | cons c cs ih =>
    intro acc
    by_cases hc : c = ':'
    · subst hc
      simp [splitOnColonAux, List.takeWhile_cons]
    · have h2 : splitOnColonAux (c :: cs) acc = splitOnColonAux cs (c :: acc) := by
        simp [splitOnColonAux, hc]
      rw [h2, ih (c :: acc)]
      simp [List.takeWhile_cons, hc, List.reverse_cons]

/-- C9: a missing or falsy image argument defaults to `nginx:latest`, and
the slim/distroless image names are the text before the first colon of the
image with `-slim:latest` / `-distroless:latest` appended. -/
theorem setup_base_configuration_behavior :
    analyzer_image none = "nginx:latest" ∧
    analyzer_image (some { image := none }) = "nginx:latest" ∧
    analyzer_image (some { image := some "" }) = "nginx:latest" ∧
    (∀ s : String, s ≠ "" → analyzer_image (some { image := some s }) = s) ∧
    (∀ img : String, slim_image img = textBeforeFirstColon img ++ "-slim:latest") ∧
    (∀ img : String,
      distroless_image img = textBeforeFirstColon img ++ "-distroless:latest") := by
  refine ⟨rfl, rfl, rfl, ?_, ?_, ?_⟩
  · intro s hs
    simp [analyzer_image, hs]
  · intro img
    rw [slim_image, firstColonField, splitOnColon, splitOnColonAux_headD,
      List.reverse_nil, List.nil_append, textBeforeFirstColon]
  · intro img
    rw [distroless_image, firstColonField, splitOnColon, splitOnColonAux_headD,
      List.reverse_nil, List.nil_append, textBeforeFirstColon]

/-- Witness for `setup_base_configuration_behavior` on concrete image
strings. -/
theorem setup_base_configuration_behavior_witness :
    ("alpine" : String) ≠ "" ∧
    analyzer_image (some { image := some "alpine" }) = "alpine" ∧
    slim_image "alpine:3" = textBeforeFirstColon "alpine:3" ++ "-slim:latest" ∧
    slim_image "alpine:3" = "alpine-slim:latest" ∧
    distroless_image "nginx:latest" = "nginx-distroless:latest" := by
  refine ⟨by decide, setup_base_configuration_behavior.2.2.2.1 "alpine" (by decide),
    setup_base_configuration_behavior.2.2.2.2.1 "alpine:3", by decide, by decide⟩

/-- Which build files exist in a project directory, as probed by
`JavaDependencyAnalyzer.__init__`. -/
structure ProjectDir where
  hasPomXml : Bool
  hasBuildGradle : Bool
  hasBuildGradleKts : Bool
deriving Repr, DecidableEq

/-- `JavaDependencyAnalyzer._is_maven_project`: `pom.xml` exists. -/
def is_maven_project (d : ProjectDir) : Bool := d.hasPomXml

/-- `JavaDependencyAnalyzer._is_gradle_project`: `build.gradle` or
`build.gradle.kts` exists. -/
def is_gradle_project (d : ProjectDir) : Bool :=
  d.hasBuildGradle || d.hasBuildGradleKts

/-- The build-tool parameters chosen at the top of
`generate_minimal_dockerfile`. -/
structure BuildConfig where
  build_tool : String
  build_file : String
  build_command : String
  jar_path : String
deriving Repr, DecidableEq

/-- The `if self.is_maven ... else ...` choice of
`generate_minimal_dockerfile` (`java-runtime-dependency-analyzer.py`
lines 143-152). -/
def buildConfigOf (d : ProjectDir) : BuildConfig :=
  if is_maven_project d then
    { build_tool := "maven", build_file := "pom.xml",
      build_command := "mvn clean package -DskipTests", jar_path := "target/*.jar" }
  else
    { build_tool := "gradle", build_file := "build.gradle",
      build_command := "gradle build -x test", jar_path := "build/libs/*.jar" }

/-- The Dockerfile text produced by
`JavaDependencyAnalyzer.generate_minimal_dockerfile`. -/
def generate_minimal_dockerfile (d : ProjectDir) (java_version : String) : String :=
  let c := buildConfigOf d
  "# Build stage\nFROM eclipse-temurin:" ++ java_version ++
    "-jdk-jammy as builder\n\nWORKDIR /app\nCOPY . .\nRUN " ++ c.build_command ++
    "\n\n# Create slim JRE using jlink\nRUN $JAVA_HOME/bin/jlink \\\n    --add-modules $(jdeps --ignore-missing-deps --list-deps " ++
    c.jar_path ++
    ") \\\n    --strip-debug \\\n    --no-man-pages \\\n    --no-header-files \\\n    --compress=2 \\\n    --output /customjre\n\n# Final stage\nFROM debian:slim-bookworm\n\nENV JAVA_HOME=/jre\nENV PATH=\"$\x7bJAVA_HOME\x7d/bin:$PATH\"\n\nCOPY --from=builder /customjre /jre\nCOPY --from=builder /app/" ++
    c.jar_path ++
    " /app/application.jar\n\n# Create non-root user\nRUN useradd -r -u 1000 -U javauser && \\\n    chown -R javauser:javauser /app\n\nUSER javauser\n\nENTRYPOINT [\"java\", \"-jar\", \"/app/application.jar\"]\n"

/-- The two dependency-analysis paths `main` can take. -/
inductive BuildChoice where
  | maven
  | gradle
deriving Repr, DecidableEq

/-- Embedding of `main`'s dispatch (`java-runtime-dependency-analyzer.py`
lines 189-201): bail out when neither build system is present, otherwise
run the Maven analysis when `is_maven` and the Gradle analysis otherwise. -/
def mainAnalysisChoice (d : ProjectDir) : Option BuildChoice :=
  if ¬ (is_maven_project d || is_gradle_project d) then none
  else if is_maven_project d then some .maven else some .gradle

/-- C10: a project directory holding both a `pom.xml` and a Gradle build
file is treated as Maven everywhere — `main` runs the Maven dependency
analysis, and the generated Dockerfile is the Maven variant (build command
`mvn clean package -DskipTests`, jar taken from `target/*.jar`), identical
to the one generated for a pure-Maven project and never the Gradle
variant. -/
theorem maven_wins_when_both_build_files (d : ProjectDir) (v : String)
    (hp : d.hasPomXml = true) (hg : is_gradle_project d = true) :
    mainAnalysisChoice d = some .maven ∧
    buildConfigOf d =
      { build_tool := "maven", build_file := "pom.xml",
        build_command := "mvn clean package -DskipTests",
        jar_path := "target/*.jar" } ∧
    generate_minimal_dockerfile d v =
      generate_minimal_dockerfile
        { hasPomXml := true, hasBuildGradle := false, hasBuildGradleKts := false } v ∧
    (buildConfigOf d).build_command ≠ "gradle build -x test" := by
  have hbc : buildConfigOf d =
      { build_tool := "maven", build_file := "pom.xml",
        build_command := "mvn clean package -DskipTests",
        jar_path := "target/*.jar" } := by
    simp [buildConfigOf, is_maven_project, hp]
  refine ⟨?_, hbc, ?_, ?_⟩
  · simp [mainAnalysisChoice, is_maven_project, hp, hg]
  · simp [generate_minimal_dockerfile, buildConfigOf, is_maven_project, hp]
  · rw [hbc]
    decide

/-- Witness for `maven_wins_when_both_build_files`: a directory holding
both `pom.xml` and `build.gradle`. -/
theorem maven_wins_when_both_build_files_witness :
    (⟨true, true, false⟩ : ProjectDir).hasPomXml = true ∧
    is_gradle_project ⟨true, true, false⟩ = true ∧
    mainAnalysisChoice ⟨true, true, false⟩ = some .maven ∧
    generate_minimal_dockerfile ⟨true, true, false⟩ "17" =
      generate_minimal_dockerfile ⟨true, false, false⟩ "17" := by
  have h := maven_wins_when_both_build_files ⟨true, true, false⟩ "17" rfl rfl
  exact ⟨rfl, rfl, h.1, h.2.2.1⟩
